import Mathlib

set_option maxRecDepth 8192

/-!
Shallow embedding of the mobile-webcam receiver (`src/reciever.py`, the
letterboxing version also present as `src/src/reciever.py` in the checkout).

The receiver ingests a WebSocket stream of binary (compressed image) and text
(command) messages.  Binary payloads are decoded, debounced by a
dimension-stability tracker, geometrically transformed (rotate / flip /
letterbox) and scheduled on a fixed-resolution virtual camera.  Text messages
mutate the per-connection transform state.

Modelling conventions:
* Machine integers are `Nat`/`Int`; Python `%` on ints with a positive modulus
  agrees with Lean's `Int.emod`.
* A raster image is its pixel dimensions plus a total pixel function.  The
  pixel values produced by PIL's resampling filters (LANCZOS resize, the
  generic-angle affine rotation) are not modelled bit-exactly — no verified
  claim inspects them — but all size arithmetic, the exact right-angle
  transposes and flips, the branch structure, and the order of operations are
  translated faithfully from the source.
* Aspect-ratio comparisons that Python performs on binary floats
  (`img_aspect > target_aspect`) are modelled by the exact cross-multiplied
  integer comparison; the two agree except on ties beyond double precision,
  which no claim exercises.
* PIL converts the integer rotation angle to a binary64 float before its
  `angle % 360.0` reduction; that conversion rounds for magnitudes ≥ 2^53
  and is modelled exactly (`roundToDouble`), because the reduced angle a
  huge rotation actually produces differs from its exact residue.
* PIL's `Image.open` is lazy: it parses only the header (so the frame's
  size is known and the stability check runs), and the pixel data is decoded
  at the first operation that needs it; a payload with a readable header but
  a broken body therefore fails in mid-pipeline, which the `BinPayload`
  decode outcomes represent.
* Python's dynamic typing of the per-connection flip flags (a JSON-decoded
  value is stored unvalidated) is modelled by storing a `JVal` in the session.
* `json.loads` is external library code; a text message is modelled as the
  raw character list together with the outcome of `json.loads` on it
  (`none` = `json.JSONDecodeError`).  All concrete messages used below pair a
  raw text with the value `json.loads` actually returns on it.
-/

/-- RGB pixel value, as in the receiver's `'RGB'` PIL images. -/
abbrev Pix := Nat × Nat × Nat

/-- A raster image: pixel dimensions plus pixel contents (`img.size` in PIL is
the pair `(width, height)`; pixel `(x, y)` has `x` growing rightwards and `y`
downwards). -/
structure Img where
  width : Nat
  height : Nat
  pix : Nat → Nat → Pix

/-- `FIXED_CAMERA_WIDTH = 1920` (reciever.py line 29). -/
def FIXED_CAMERA_WIDTH : Nat := 1920

/-- `FIXED_CAMERA_HEIGHT = 1080` (reciever.py line 30). -/
def FIXED_CAMERA_HEIGHT : Nat := 1080

/-- `REQUIRED_STABLE_FRAMES = 3` (reciever.py line 162). -/
def REQUIRED_STABLE_FRAMES : Nat := 3

/-- Black pixel `(0, 0, 0)`, the letterbox fill colour. -/
def blackPix : Pix := (0, 0, 0)

/-- The scaled size `(new_width, new_height)` computed by
`resize_with_letterbox` (lines 62-73).  Python compares the float aspect
ratios `img_width / img_height > target_width / target_height`; we use the
exact cross-multiplied comparison.  `int(...)` on the non-negative float
quotients is floor division. -/
def letterboxFit (iw ih tw th : Nat) : Nat × Nat :=
  if iw * th > tw * ih then
    -- image is wider: fit to width; new_height = int(target_width / img_aspect)
    (tw, tw * ih / iw)
  else
    -- image is taller: fit to height; new_width = int(target_height * img_aspect)
    (th * iw / ih, th)

/-- Model of PIL `img.resize((w, h), LANCZOS)`: the output size is exactly
`(w, h)`.  The LANCZOS filter's pixel values are not modelled bit-exactly
(no claim inspects them); nearest sampling stands in. -/
def pilResize (img : Img) (w h : Nat) : Img :=
  ⟨w, h, fun x y => img.pix (x * img.width / w) (y * img.height / h)⟩

/-- The paste offset `x_offset = (target_width - new_width) // 2`
(reciever.py line 82). -/
def letterboxXOffset (iw ih tw th : Nat) : Nat :=
  (tw - (letterboxFit iw ih tw th).1) / 2

/-- The paste offset `y_offset = (target_height - new_height) // 2`
(reciever.py line 83). -/
def letterboxYOffset (iw ih tw th : Nat) : Nat :=
  (th - (letterboxFit iw ih tw th).2) / 2

/-- `resize_with_letterbox(img, target_width, target_height)`
(reciever.py lines 60-86): scale preserving aspect ratio, then paste centred
onto a black `target_width × target_height` canvas with offsets
`(target_width - new_width) // 2` and `(target_height - new_height) // 2`. -/
def resize_with_letterbox (img : Img) (target_width target_height : Nat) : Img :=
  let nw := (letterboxFit img.width img.height target_width target_height).1
  let nh := (letterboxFit img.width img.height target_width target_height).2
  let resized := pilResize img nw nh
  let x_offset := letterboxXOffset img.width img.height target_width target_height
  let y_offset := letterboxYOffset img.width img.height target_width target_height
  ⟨target_width, target_height, fun x y =>
    if x_offset ≤ x ∧ x < x_offset + nw ∧ y_offset ≤ y ∧ y < y_offset + nh then
      resized.pix (x - x_offset) (y - y_offset)
    else blackPix⟩

/-- PIL transpose `FLIP_LEFT_RIGHT`. -/
def flipLeftRight (img : Img) : Img :=
  ⟨img.width, img.height, fun x y => img.pix (img.width - 1 - x) y⟩

/-- PIL transpose `FLIP_TOP_BOTTOM`. -/
def flipTopBottom (img : Img) : Img :=
  ⟨img.width, img.height, fun x y => img.pix x (img.height - 1 - y)⟩

/-- PIL transpose `ROTATE_180`. -/
def rotate180 (img : Img) : Img :=
  ⟨img.width, img.height, fun x y => img.pix (img.width - 1 - x) (img.height - 1 - y)⟩

/-- PIL transpose `ROTATE_90` (90 degrees counter-clockwise; swaps the
dimensions). -/
def rotate90 (img : Img) : Img :=
  ⟨img.height, img.width, fun x y => img.pix (img.width - 1 - y) x⟩

/-- PIL transpose `ROTATE_270` (270 degrees counter-clockwise; swaps the
dimensions). -/
def rotate270 (img : Img) : Img :=
  ⟨img.height, img.width, fun x y => img.pix y (img.height - 1 - x)⟩

/-- Core of PIL `Image.rotate` after its initial `angle = angle % 360.0`
reduction, for the integer angles the receiver passes.  PIL's fast paths:
angle 0 returns a copy; angle 180 is the `ROTATE_180` transpose; angles
90/270 are transposes when `expand` is set or the image is square.  Every
remaining case resamples through an affine transform that keeps the input
size when `expand` is false; `apply_transformations` reaches that remaining
case only with `expand = false` (it passes `expand = true` exactly when the
reduced angle is 90 or 270), so its resampled pixel values — not inspected by
any claim — are modelled by the identity raster. -/
def pilRotateCore (img : Img) (a : Int) (expand : Bool) : Img :=
  if a = 0 then img
  else if a = 180 then rotate180 img
  else if (a = 90 ∨ a = 270) ∧ (expand = true ∨ img.width = img.height) then
    (if a = 90 then rotate90 img else rotate270 img)
  else img

/-- Largest `e ≤ k` with `2 ^ e ≤ n`, and 0 when there is none: a
kernel-friendly floor of the base-2 logarithm for `n < 2 ^ (k + 1)`
(structural descent, so concrete evaluation reduces). -/
def log2Search : Nat → Nat → Nat
  | 0, _ => 0
  | k + 1, n => if 2 ^ (k + 1) ≤ n then k + 1 else log2Search k n

/-- The value Python obtains when converting the non-negative integer `m` to
a binary64 float (round to nearest, ties to even): exact below 2^53,
otherwise rounded to the 53-bit grid of `m`'s binade.  Conversion of
magnitudes ≥ 2^1024 raises `OverflowError` in Python — the handler's
per-message `except` then skips the frame; that regime (and hence the search
bound 1024) is outside every claim. -/
def roundNearestEven (m : Nat) : Nat :=
  if m ≤ 2 ^ 53 then m
  else
    let s := 2 ^ (log2Search 1024 m - 52)
    let q := m / s
    let r := m % s
    if 2 * r < s then q * s
    else if s < 2 * r then (q + 1) * s
    else if q % 2 = 0 then q * s else (q + 1) * s

/-- Binary64 value of an integer: Python `float(n)` for either sign. -/
def roundToDouble (n : Int) : Int :=
  if n < 0 then -(roundNearestEven n.natAbs : Int) else (roundNearestEven n.natAbs : Int)

/-- PIL `img.rotate(angle, expand)`: the integer angle is first converted to
a Python binary64 float — exact only below 2^53 — and then reduced by
`angle = angle % 360.0`, which is exact on integral floats; the receiver
always calls it with an integer angle. -/
def pilRotate (img : Img) (angle : Int) (expand : Bool) : Img :=
  pilRotateCore img (roundToDouble angle % 360) expand

/-- The rotation step of `apply_transformations` (reciever.py lines 90-97):
skip when `rotation == 0`; otherwise branch on `rotation % 360` being 90/270
(rotate with `expand=True`) versus anything else (`expand=False`), always
rotating by `-rotation` (clockwise-positive convention). -/
def rotationStep (img : Img) (rotation : Int) : Img :=
  if rotation ≠ 0 then
    if rotation % 360 = 90 ∨ rotation % 360 = 270 then
      pilRotate img (-rotation) true
    else
      pilRotate img (-rotation) false
  else img

/-- JSON values as decoded by `json.loads` (numbers split into the `int` and
`float` cases Python distinguishes; a decoded float is modelled by the exact
rational value of its literal). -/
inductive JVal where
  | jnull : JVal
  | jbool : Bool → JVal
  | jint : Int → JVal
  | jnum : ℚ → JVal
  | jstr : String → JVal
  | jarr : List JVal → JVal
  | jobj : List (String × JVal) → JVal

/-- Python truthiness (`if flip_h:` etc.) on the JSON values a session field
can hold: `None`, `False`, `0`, `0.0`, `""`, `[]` and `{}` are falsy,
everything else truthy. -/
def truthy : JVal → Bool
  | .jnull => false
  | .jbool b => b
  | .jint n => n ≠ 0
  | .jnum q => q ≠ 0
  | .jstr s => s.data ≠ []
  | .jarr l => !l.isEmpty
  | .jobj f => !f.isEmpty

/-- The horizontal then vertical flip steps of `apply_transformations`
(reciever.py lines 99-105).  The session's flip fields are dynamically typed
in Python (a structured flip command stores the raw JSON value), so the flags
are `JVal`s tested for truthiness. -/
def flipSteps (img : Img) (flip_h flip_v : JVal) : Img :=
  let i1 := if truthy flip_h then flipLeftRight img else img
  if truthy flip_v then flipTopBottom i1 else i1

/-- The final letterbox step of `apply_transformations` (reciever.py lines
107-110): `if target_width and target_height` is Python truthiness on ints
(non-zero), and the resize is skipped when the current size already equals the
target. -/
def letterboxStep (img : Img) (target_width target_height : Nat) : Img :=
  if target_width ≠ 0 ∧ target_height ≠ 0 then
    if img.width = target_width ∧ img.height = target_height then img
    else resize_with_letterbox img target_width target_height
  else img

/-- `apply_transformations(img, rotation, flip_h, flip_v, target_width,
target_height)` (reciever.py lines 88-112): rotation, then horizontal flip,
then vertical flip, then letterbox resize. -/
def apply_transformations (img : Img) (rotation : Int) (flip_h flip_v : JVal)
    (target_width target_height : Nat) : Img :=
  letterboxStep (flipSteps (rotationStep img rotation) flip_h flip_v)
    target_width target_height

/-- The array scheduled by `write_frame_to_camera` (reciever.py lines
114-141) when the camera handle exists (with `camera is None` the function
returns `False` before scheduling anything): letterbox to the fixed
dimensions unless the image already has them; `np.array` of an RGB PIL image
has shape `(height, width, 3)`, and the dead second shape check re-letterboxes
on mismatch. -/
def write_frame_to_camera (img : Img) : Img :=
  let img1 :=
    if img.width = FIXED_CAMERA_WIDTH ∧ img.height = FIXED_CAMERA_HEIGHT then img
    else resize_with_letterbox img FIXED_CAMERA_WIDTH FIXED_CAMERA_HEIGHT
  if img1.height = FIXED_CAMERA_HEIGHT ∧ img1.width = FIXED_CAMERA_WIDTH then img1
  else resize_with_letterbox img1 FIXED_CAMERA_WIDTH FIXED_CAMERA_HEIGHT

/-- The dimension-stability state of a connection (reciever.py lines
158-162): `last_incoming_dimensions`, `dimension_change_frame_count`,
`stable_dimension_frame_count`. -/
structure Tracker where
  last : Option (Nat × Nat)
  changeCount : Nat
  stableCount : Nat
deriving DecidableEq

/-- Tracker state at connection accept: no dimensions seen, both counters
zero. -/
def initTracker : Tracker := ⟨none, 0, 0⟩

/-- One stability-check step (reciever.py lines 175-200), given the decoded
frame's `(width, height)`: returns the updated tracker and the accept/drop
decision (`true` = the frame is processed, `false` = `continue`).  Python's
`if last_incoming_dimensions and last_incoming_dimensions != (w, h)` is
truthiness on an `Option`-like value: `None` is falsy, any dimension pair is
truthy. -/
def trackerStep (t : Tracker) (dims : Nat × Nat) : Tracker × Bool :=
  if t.last.isSome ∧ t.last ≠ some dims then
    -- dimension change branch: counters updated before the threshold test
    let cc := t.changeCount + 1
    if cc < REQUIRED_STABLE_FRAMES then (⟨some dims, cc, 0⟩, false)
    else (⟨some dims, cc, 0⟩, true)
  else
    if t.changeCount > 0 then
      let sc := t.stableCount + 1
      if sc < REQUIRED_STABLE_FRAMES then (⟨some dims, t.changeCount, sc⟩, false)
      else (⟨some dims, 0, 0⟩, true)
    else (⟨some dims, t.changeCount, t.stableCount⟩, true)

/-- Accept/drop decisions of a tracker run over a list of frame dimensions. -/
def trackerRun (t : Tracker) : List (Nat × Nat) → List Bool
  | [] => []
  | d :: ds =>
    let r := trackerStep t d
    r.2 :: trackerRun r.1 ds

/-- Python `str.split(sep)` for a single-character separator, on the
character list of the string (`"".split(":") == [""]`). -/
def pySplit (sep : Char) : List Char → List (List Char)
  | [] => [[]]
  | c :: cs =>
    if c = sep then [] :: pySplit sep cs
    else
      match pySplit sep cs with
      | [] => [[c]]
      | p :: ps => (c :: p) :: ps

/-- Decimal digit run accumulator for `int(str)`. -/
def decDigits (cs : List Char) (acc : Nat) : Option Nat :=
  match cs with
  | [] => some acc
  | c :: rest => if c.isDigit then decDigits rest (acc * 10 + (c.toNat - 48)) else none

/-- Non-empty run of decimal digits, or failure. -/
def digitsToNat (cs : List Char) : Option Nat :=
  match cs with
  | [] => none
  | _ => decDigits cs 0

/-- Python `int(s)` on a string, as a SOUND under-approximation: an optional
sign followed by a non-empty ASCII digit run, `ValueError` (`none`)
otherwise.  Python's `int()` additionally strips surrounding (unicode)
whitespace, allows `_` digit grouping and accepts non-ASCII decimal digits;
everything this model accepts, `int()` accepts with the same value.  The
model's command interpreter can therefore treat some exotic spellings as
parse failures that the program would accept; no verified statement
quantifies over that divergent region — the ignored-message theorem's
boundary (`looseAccepts`) is purely prefix/shape-syntactic, and the
rotate-equivalence theorem uses this parser only as a positive
hypothesis. -/
def pyIntOfChars (cs : List Char) : Option Int :=
  match cs with
  | [] => none
  | c :: rest =>
    if c = '-' then (digitsToNat rest).map (fun m => -(m : Int))
    else if c = '+' then (digitsToNat rest).map (fun m => (m : Int))
    else (digitsToNat (c :: rest)).map (fun m => (m : Int))

/-- Python `int(x)` on a JSON-decoded value: ints pass through, bools are 0/1,
floats truncate toward zero, numeric strings parse via `pyIntOfChars` (and
inherit its sound under-approximation of `int()` string acceptance);
everything else raises (`none`). -/
def pyIntOfJVal : JVal → Option Int
  | .jint n => some n
  | .jbool b => some (if b then 1 else 0)
  | .jnum q => some (q.num.tdiv q.den)
  | .jstr s => pyIntOfChars s.data
  | _ => none

/-- Python `str.upper()` (ASCII; the receiver only compares against `"H"` and
`"V"`). -/
def pyUpper (cs : List Char) : List Char := cs.map Char.toUpper

/-- Python `str.lower()` (ASCII; the receiver only compares against
`"true"`). -/
def pyLower (cs : List Char) : List Char := cs.map Char.toLower

/-- Python `dict.get(k)` on the decoded JSON object's key/value list
(`json.loads` produces unique keys: later duplicates overwrite earlier ones
before the handler ever sees the dict). -/
def jGet (fields : List (String × JVal)) (k : String) : Option JVal :=
  match fields with
  | [] => none
  | (k', v) :: rest => if k' = k then some v else jGet rest k

/-- Python `dict.get(k, d)`. -/
def jGetD (fields : List (String × JVal)) (k : String) (d : JVal) : JVal :=
  (jGet fields k).getD d

/-- One text message as the handler observes it: the raw character sequence
together with the outcome of `json.loads` on it (`none` models
`json.JSONDecodeError`).  A coherent message carries exactly the value
`json.loads` returns on its raw text; every concrete message below does. -/
structure TextMsg where
  raw : List Char
  parsed : Option JVal

/-- Per-connection session state (reciever.py lines 148-162): frame counter,
transform state (the flip fields are dynamically typed, see `flipSteps`),
stability tracker, plus the trace of arrays scheduled on the virtual sink. -/
structure Session where
  frameCount : Nat
  rotation : Int
  flip_h : JVal
  flip_v : JVal
  tracker : Tracker
  sink : List Img

/-- Session state at connection accept (reciever.py lines 148-162). -/
def initSession : Session :=
  ⟨0, 0, .jbool false, .jbool false, initTracker, []⟩

/-- The handler's text-message branch (reciever.py lines 237-266).  JSON
first; a decode error falls back to the delimited grammar.  Any exception in
a branch (`int()` on a non-numeric value, `.get` on a non-dict, `.upper()` on
a non-string, `int('')` on a missing split field) is caught by the
surrounding `except` and leaves the state unchanged. -/
def processText (s : Session) (m : TextMsg) : Session :=
  match m.parsed with
  | some j =>
    match j with
    | .jobj fields =>
      match jGet fields "action" with
      | some (.jstr a) =>
        if a = "rotate" then
          -- rotation = int(cmd.get("value", 0))
          match pyIntOfJVal (jGetD fields "value" (.jint 0)) with
          | some n => { s with rotation := n }
          | none => s
        else if a = "flip" then
          -- flip_type = cmd.get("type", "").upper()
          match jGetD fields "type" (.jstr "") with
          | .jstr t =>
            if pyUpper t.data = ("H".data) then
              { s with flip_h := jGetD fields "value" (.jbool false) }
            else if pyUpper t.data = ("V".data) then
              { s with flip_v := jGetD fields "value" (.jbool false) }
            else s
          | _ => s
        else s
      | _ => s
    | _ => s
  | none =>
    -- json.JSONDecodeError: fallback to the simple string format
    let parts := pySplit ':' m.raw
    if List.isPrefixOf ("ROTATE:".data) m.raw then
      match pyIntOfChars (parts.getD 1 []) with
      | some n => { s with rotation := n }
      | none => s
    else if List.isPrefixOf ("FLIP:H:".data) m.raw then
      { s with flip_h := .jbool (pyLower (parts.getD 2 []) = ("true".data)) }
    else if List.isPrefixOf ("FLIP:V:".data) m.raw then
      { s with flip_v := .jbool (pyLower (parts.getD 2 []) = ("true".data)) }
    else s

/-- Decode outcome of one binary payload under PIL's LAZY open: `invalid`
when `Image.open` itself raises (unusable header); `truncated w h` when the
header parses — reporting size `(w, h)` — but the deferred pixel load raises
at the first operation that needs the raster; `ok` when the payload decodes
fully. -/
inductive BinPayload where
  | invalid : BinPayload
  | truncated : Nat → Nat → BinPayload
  | ok : Img → BinPayload

/-- One stream message: a binary frame payload or a text message. -/
inductive Msg where
  | binary : BinPayload → Msg
  | text : TextMsg → Msg

/-- The handler's step on a header-valid payload whose pixel load raises
(reciever.py lines 165-236).  `img.size` works, so the stability check and
`last_incoming_dimensions` update (lines 171-200) run in full; on acceptance
the first pixel-touching operation raises: `img.rotate` when the session
rotation is non-zero, else a flip transpose when a flip flag is truthy, else
`img.resize` inside the letterbox when the header size differs from the
fixed canvas — that exception is caught at line 231 and the frame is skipped
after the tracker update.  Only when no transform touches the raster (header
size already the fixed canvas) does control reach `img.save` (its failure is
caught at lines 212-215) and `write_frame_to_camera` (whose own `try`
catches the `np.array` load failure before any frame is scheduled), and then
`frame_count += 1` runs. -/
def stepTruncated (s : Session) (w h : Nat) : Session :=
  let r := trackerStep s.tracker (w, h)
  if r.2 then
    if s.rotation ≠ 0 then { s with tracker := r.1 }
    else if truthy s.flip_h then { s with tracker := r.1 }
    else if truthy s.flip_v then { s with tracker := r.1 }
    else if w = FIXED_CAMERA_WIDTH ∧ h = FIXED_CAMERA_HEIGHT then
      { s with tracker := r.1, frameCount := s.frameCount + 1 }
    else { s with tracker := r.1 }
  else { s with tracker := r.1 }

/-- The handler's per-message step (reciever.py lines 165-266).  An
`Image.open` failure is caught with the state untouched.  An accepted,
fully-decoded frame is transformed with the current session state, its
scheduled camera array appended to the sink trace, and the frame counter
bumped; a dropped frame only updates the tracker; a truncated frame follows
`stepTruncated`. -/
def stepMsg (s : Session) : Msg → Session
  | .binary .invalid => s
  | .binary (.truncated w h) => stepTruncated s w h
  | .binary (.ok img) =>
    let r := trackerStep s.tracker (img.width, img.height)
    if r.2 then
      let out := apply_transformations img s.rotation s.flip_h s.flip_v
        FIXED_CAMERA_WIDTH FIXED_CAMERA_HEIGHT
      { s with tracker := r.1, frameCount := s.frameCount + 1,
               sink := s.sink ++ [write_frame_to_camera out] }
    else { s with tracker := r.1 }
  | .text m => processText s m

/-- Fold of the handler loop over a message sequence. -/
def runMsgs (s : Session) : List Msg → Session
  | [] => s
  | m :: ms => runMsgs (stepMsg s m) ms

/-! ## Helper lemmas -/

/-- A list is a prefix of itself followed by anything (`str.startswith`). -/
theorem isPrefixOf_append_self (l t : List Char) :
    List.isPrefixOf l (l ++ t) = true := by
  induction l with
  | nil => simp
  | cons c cs ih => simp [List.isPrefixOf_cons₂, ih]

/-- Binary64 conversion is exact for magnitudes up to 2^53. -/
theorem roundToDouble_eq_of_le (n : Int) (h : n.natAbs ≤ 2 ^ 53) :
    roundToDouble n = n := by
  have hr : roundNearestEven n.natAbs = n.natAbs := by
    unfold roundNearestEven
    rw [if_pos h]
  unfold roundToDouble
  rw [hr]
  split <;> omega

/-- Within the binary64-exact range, `rotationStep` depends on the rotation
angle only through its residue modulo 360 (PIL's float conversion is the
identity there and its `% 360.0` reduction is then the exact residue). -/
theorem rotationStep_congr (img : Img) (r r' : Int)
    (hb : r.natAbs ≤ 2 ^ 53) (hb' : r'.natAbs ≤ 2 ^ 53)
    (h : r % 360 = r' % 360) :
    rotationStep img r = rotationStep img r' := by
  have hd : roundToDouble (-r) = -r :=
    roundToDouble_eq_of_le (-r) (by simpa using hb)
  have hd' : roundToDouble (-r') = -r' :=
    roundToDouble_eq_of_le (-r') (by simpa using hb')
  have hneg : (-r) % 360 = (-r') % 360 := by omega
  by_cases h0 : r = 0
  · subst h0
    by_cases h0' : r' = 0
    · subst h0'; rfl
    · have hr' : r' % 360 = 0 := by omega
      have hnr' : (-r') % 360 = 0 := by omega
      simp [rotationStep, h0', hr', pilRotate, hd', hnr', pilRotateCore]
  · by_cases h0' : r' = 0
    · subst h0'
      have hr : r % 360 = 0 := by omega
      have hnr : (-r) % 360 = 0 := by omega
      simp [rotationStep, h0, hr, pilRotate, hd, hnr, pilRotateCore]
    · unfold rotationStep pilRotate
      rw [if_pos h0, if_pos h0', h, hd, hd', hneg]

/-- A small concrete image used to instantiate universally quantified
theorems. -/
def testImg : Img := ⟨2, 1, fun _ _ => blackPix⟩

/-! ## Claims -/

/-- C1: every frame delivered to the virtual sink has exactly the sink's
fixed canvas dimensions — for every image with positive dimensions and every
positive target canvas, `resize_with_letterbox` returns an image of exactly
the target size, and the array `write_frame_to_camera` schedules has exactly
the fixed `(FIXED_CAMERA_HEIGHT, FIXED_CAMERA_WIDTH)` shape. -/
theorem sink_frames_have_fixed_dimensions (img : Img) (tw th : Nat)
    (_hw : 0 < img.width) (_hh : 0 < img.height)
    (_htw : 0 < tw) (_hth : 0 < th) :
    ((resize_with_letterbox img tw th).width = tw ∧
     (resize_with_letterbox img tw th).height = th) ∧
    ((write_frame_to_camera img).height = FIXED_CAMERA_HEIGHT ∧
     (write_frame_to_camera img).width = FIXED_CAMERA_WIDTH) := by
  refine ⟨⟨rfl, rfl⟩, ?_⟩
  unfold write_frame_to_camera
  by_cases h : img.width = FIXED_CAMERA_WIDTH ∧ img.height = FIXED_CAMERA_HEIGHT
  · simp [h, h.1, h.2]
  · simp [h, resize_with_letterbox]

/-- Witness for C1 at a concrete 2×1 image and 4×3 canvas. -/
theorem sink_frames_have_fixed_dimensions_witness :
    (0 < (2 : Nat)) ∧
    (((resize_with_letterbox testImg 4 3).width = 4 ∧
      (resize_with_letterbox testImg 4 3).height = 3) ∧
     ((write_frame_to_camera testImg).height = FIXED_CAMERA_HEIGHT ∧
      (write_frame_to_camera testImg).width = FIXED_CAMERA_WIDTH)) :=
  ⟨by decide,
   sink_frames_have_fixed_dimensions testImg 4 3 (by decide) (by decide)
     (by decide) (by decide)⟩

/-- C9 counterexample: letterboxing a 1×1 image into a 4×3 canvas leaves an
odd horizontal difference `4 - new_width = 1`, and the left border
(`x_offset = 0`) is NOT one pixel larger than the right border (1): the bias
goes the other way. -/
theorem letterbox_bias_claim_false :
    Odd (4 - (letterboxFit 1 1 4 3).1) ∧
    letterboxXOffset 1 1 4 3 ≠
      (4 - (letterboxFit 1 1 4 3).1 - letterboxXOffset 1 1 4 3) + 1 := by
  decide

/-- C9 (amended): the paste offsets are floor divisions
`(target - new) // 2`, and for an odd difference the top/left border is one
pixel SMALLER than the bottom/right border (the image is biased toward the
top/left; the spec's parenthetical has the borders swapped). -/
theorem letterbox_offsets_floor_bias (iw ih tw th : Nat)
    (_hiw : 0 < iw) (_hih : 0 < ih) (_htw : 0 < tw) (_hth : 0 < th) :
    letterboxXOffset iw ih tw th = (tw - (letterboxFit iw ih tw th).1) / 2 ∧
    letterboxYOffset iw ih tw th = (th - (letterboxFit iw ih tw th).2) / 2 ∧
    (Odd (tw - (letterboxFit iw ih tw th).1) →
      tw - (letterboxFit iw ih tw th).1 - letterboxXOffset iw ih tw th =
        letterboxXOffset iw ih tw th + 1) ∧
    (Odd (th - (letterboxFit iw ih tw th).2) →
      th - (letterboxFit iw ih tw th).2 - letterboxYOffset iw ih tw th =
        letterboxYOffset iw ih tw th + 1) := by
  refine ⟨rfl, rfl, ?_, ?_⟩
  · intro hodd
    obtain ⟨k, hk⟩ := hodd
    unfold letterboxXOffset
    omega
  · intro hodd
    obtain ⟨k, hk⟩ := hodd
    unfold letterboxYOffset
    omega

/-- Witness for the amended C9 at the 1×1 image and 4×3 canvas: the odd
difference 1 splits as left border 0, right border 1. -/
theorem letterbox_offsets_floor_bias_witness :
    Odd (4 - (letterboxFit 1 1 4 3).1) ∧
    4 - (letterboxFit 1 1 4 3).1 - letterboxXOffset 1 1 4 3 =
      letterboxXOffset 1 1 4 3 + 1 :=
  ⟨by decide,
   (letterbox_offsets_floor_bias 1 1 4 3 (by decide) (by decide) (by decide)
     (by decide)).2.2.1 (by decide)⟩

/-- A concrete 2×1 image with distinguishable pixels, used by the rotation
counterexamples. -/
def imgCex : Img := ⟨2, 1, fun x _ => if x = 0 then (1, 0, 0) else (0, 0, 0)⟩

/-- C5 counterexample: at rotation 2^60 + 7514 the exact residue is 90 and
the receiver requests an expanding rotate, but PIL's binary64 conversion
rounds the angle -(2^60+7514) to -(2^60+7424), a multiple of 360 — PIL's
`angle % 360.0` is 0.0 and it returns an unrotated copy, so width and height
are NOT swapped. -/
theorem rotation_step_huge_residue_90_not_swapped :
    ((2 ^ 60 + 7514 : Int) % 360 = 90) ∧
    (rotationStep imgCex (2 ^ 60 + 7514)).width = imgCex.width ∧
    imgCex.width ≠ imgCex.height := by
  decide

/-- C5 (amended): for rotations whose magnitude stays below 2^53 (where the
binary64 conversion inside PIL is exact), the rotation step swaps width and
height exactly when the effective rotation (`rotation % 360`) is 90 or 270,
leaves the size unchanged for effective rotation 0 or 180, and normalizes
modulo 360 (any two in-range rotations with the same residue behave
identically; in particular -90 behaves identically to 270).  Beyond 2^53 the
float conversion rounds the angle and these guarantees fail. -/
theorem rotation_step_sizes_within_double_range (img : Img) (r : Int)
    (hb : r.natAbs ≤ 2 ^ 53) :
    ((r % 360 = 90 ∨ r % 360 = 270) →
      (rotationStep img r).width = img.height ∧
      (rotationStep img r).height = img.width) ∧
    ((r % 360 = 0 ∨ r % 360 = 180) →
      (rotationStep img r).width = img.width ∧
      (rotationStep img r).height = img.height) ∧
    (∀ r' : Int, r'.natAbs ≤ 2 ^ 53 → r % 360 = r' % 360 →
      rotationStep img r = rotationStep img r') ∧
    rotationStep img (-90) = rotationStep img 270 := by
  have hd : roundToDouble (-r) = -r :=
    roundToDouble_eq_of_le (-r) (by simpa using hb)
  refine ⟨?_, ?_, fun r' hb' h => rotationStep_congr img r r' hb hb' h,
    rotationStep_congr img (-90) 270 (by decide) (by decide) (by decide)⟩
  · rintro (h | h)
    · have hr0 : r ≠ 0 := by omega
      have hn : (-r) % 360 = 270 := by omega
      simp [rotationStep, hr0, h, pilRotate, hd, hn, pilRotateCore, rotate270]
    · have hr0 : r ≠ 0 := by omega
      have hn : (-r) % 360 = 90 := by omega
      simp [rotationStep, hr0, h, pilRotate, hd, hn, pilRotateCore, rotate90]
  · rintro (h | h)
    · by_cases hr0 : r = 0
      · subst hr0; exact ⟨rfl, rfl⟩
      · have hn : (-r) % 360 = 0 := by omega
        simp [rotationStep, hr0, h, pilRotate, hd, hn, pilRotateCore]
    · have hr0 : r ≠ 0 := by omega
      have hn : (-r) % 360 = 180 := by omega
      simp [rotationStep, hr0, h, pilRotate, hd, hn, pilRotateCore, rotate180]

/-- Witness for the amended C5 at a concrete 2×1 image: rotation 90 swaps
the size, rotation 180 keeps it, 450 behaves as 90, and -90 behaves as
270. -/
theorem rotation_step_sizes_within_double_range_witness :
    ((90 : Int).natAbs ≤ 2 ^ 53) ∧
    ((rotationStep testImg 90).width = testImg.height ∧
     (rotationStep testImg 90).height = testImg.width) ∧
    ((rotationStep testImg 180).width = testImg.width ∧
     (rotationStep testImg 180).height = testImg.height) ∧
    rotationStep testImg 450 = rotationStep testImg 90 ∧
    rotationStep testImg (-90) = rotationStep testImg 270 :=
  ⟨by decide,
   (rotation_step_sizes_within_double_range testImg 90 (by decide)).1
     (by decide),
   (rotation_step_sizes_within_double_range testImg 180 (by decide)).2.1
     (by decide),
   (rotation_step_sizes_within_double_range testImg 450 (by decide)).2.2.1 90
     (by decide) (by decide),
   (rotation_step_sizes_within_double_range testImg (-90) (by decide)).2.2.2⟩

/-- C4 counterexample: rotations 2^54 + 116 and (2^54 + 116) + 360·k with
k = 6355079474178407 (that is, 2^61 + 14668) have the same exact residue
180, but PIL's binary64 conversion is exact for the former (reduced angle
180.0: an exact ROTATE_180 transpose) and rounds the latter to
-(2^61+14848), a multiple of 360 (reduced angle 0.0: an unrotated copy) —
the two outputs differ at pixel (0, 0), falsifying the claimed identity. -/
theorem apply_transformations_huge_rotation_differs :
    ((2 ^ 54 + 116 : Int) + 360 * 6355079474178407 = 2 ^ 61 + 14668) ∧
    apply_transformations imgCex (2 ^ 54 + 116) (.jbool false) (.jbool false)
        2 1 ≠
      apply_transformations imgCex (2 ^ 61 + 14668) (.jbool false)
        (.jbool false) 2 1 := by
  refine ⟨by decide, fun he => ?_⟩
  have hp := congrArg (fun i => i.pix 0 0) he
  simp only at hp
  exact absurd hp (by decide)

/-- C4 (amended): for every image, flip-flag pair and positive target
canvas, `apply_transformations` produces pixel-for-pixel identical output
for rotation `r` and rotation `r + 360 * k` whenever both stay within the
binary64-exact magnitude 2^53; beyond that PIL's float conversion of the
angle rounds, and the identity fails. -/
theorem apply_transformations_rotation_periodic_double_range (img : Img)
    (fh fv : JVal) (tw th : Nat) (_htw : 0 < tw) (_hth : 0 < th) (r k : Int)
    (hb : r.natAbs ≤ 2 ^ 53) (hbk : (r + 360 * k).natAbs ≤ 2 ^ 53) :
    apply_transformations img r fh fv tw th =
      apply_transformations img (r + 360 * k) fh fv tw th := by
  unfold apply_transformations
  rw [rotationStep_congr img r (r + 360 * k) hb hbk (by omega)]

/-- Witness for the amended C4 at a concrete 2×1 image, rotation 90 versus
90 + 360. -/
theorem apply_transformations_rotation_periodic_double_range_witness :
    (0 < (4 : Nat)) ∧ ((90 : Int).natAbs ≤ 2 ^ 53) ∧
    ((90 + 360 * 1 : Int).natAbs ≤ 2 ^ 53) ∧
    apply_transformations testImg 90 (.jbool false) (.jbool false) 4 3 =
      apply_transformations testImg (90 + 360 * 1) (.jbool false)
        (.jbool false) 4 3 :=
  ⟨by decide, by decide, by decide,
   apply_transformations_rotation_periodic_double_range testImg
     (.jbool false) (.jbool false) 4 3 (by decide) (by decide) 90 1
     (by decide) (by decide)⟩

/-- C2 counterexample: on the resolution sequence `[A,A,B,B,A,A,A]` with
`A = 640×480`, `B = 480×640`, a fresh tracker accepts exactly the FIRST TWO
`A` frames and drops everything afterwards (the trailing `A` run would need a
fourth frame to be accepted) — not the pattern `[drop ×6, accept]` the claim
states. -/
theorem tracker_aabbaaa_claim_false :
    trackerRun initTracker
        [(640, 480), (640, 480), (480, 640), (480, 640),
         (640, 480), (640, 480), (640, 480)] =
      [true, true, false, false, false, false, false] ∧
    trackerRun initTracker
        [(640, 480), (640, 480), (480, 640), (480, 640),
         (640, 480), (640, 480), (640, 480)] ≠
      [false, false, false, false, false, false, true] := by
  decide

/-- C2 (amended): for any two distinct resolutions `A ≠ B`, a fresh tracker
fed `[A,A,B,B,A,A,A]` accepts exactly the first two `A` frames (the very
first frame is accepted because no dimensions were seen, the second because
the tracker is not mid-transition) and drops both `B`s and the entire
trailing `A` run: after a change, the stable counter has reached only 2 at
the third trailing `A`, short of the threshold of 3. -/
theorem tracker_aabbaaa_pattern (A B : Nat × Nat) (h : A ≠ B) :
    trackerRun initTracker [A, A, B, B, A, A, A] =
      [true, true, false, false, false, false, false] := by
  have h' : B ≠ A := fun e => h e.symm
  simp [trackerRun, trackerStep, initTracker, REQUIRED_STABLE_FRAMES, h, h']

/-- Witness for the amended C2 at `A = 640×480`, `B = 480×640`. -/
theorem tracker_aabbaaa_pattern_witness :
    ((640, 480) : Nat × Nat) ≠ (480, 640) ∧
    trackerRun initTracker
        [(640, 480), (640, 480), (480, 640), (480, 640),
         (640, 480), (640, 480), (640, 480)] =
      [true, true, false, false, false, false, false] :=
  ⟨by decide, tracker_aabbaaa_pattern (640, 480) (480, 640) (by decide)⟩

/-- C3 counterexample: after the tracker has seen frames, a frame whose
resolution occurs in a run of length 1 (< 3) can still be accepted: feeding a
fresh tracker four pairwise-distinct resolutions, the fourth is accepted
because the change counter reached the threshold, even though its resolution
was never seen before. -/
theorem tracker_short_run_accepted :
    (trackerRun initTracker [(1, 1), (2, 2), (3, 3), (4, 4)]).getD 3 false =
      true := by
  decide

/-- C3 (amended): acceptance is not governed by runs of ≥ 3 identical
resolutions.  Two corrections: (a) once three consecutive resolution CHANGES
have been counted, the third differing frame is accepted even though its
resolution has a run of length 1 (`[A,B,C,D]` pairwise distinct accepts `D`);
(b) after a change, a new stable resolution is first accepted at its FOURTH
consecutive frame, not its third (`[A,B,B,B,B]` accepts only the last `B`).
The first frame a fresh tracker sees is always accepted. -/
theorem tracker_acceptance_not_run_based (A B C D : Nat × Nat)
    (h1 : A ≠ B) (h2 : B ≠ C) (h3 : C ≠ D) :
    trackerRun initTracker [A, B, C, D] = [true, false, false, true] ∧
    trackerRun initTracker [A, B, B, B, B] =
      [true, false, false, false, true] := by
  have h1' : B ≠ A := fun e => h1 e.symm
  have h2' : C ≠ B := fun e => h2 e.symm
  have h3' : D ≠ C := fun e => h3 e.symm
  constructor
  · simp [trackerRun, trackerStep, initTracker, REQUIRED_STABLE_FRAMES,
      h1, h1', h2, h2', h3, h3']
  · simp [trackerRun, trackerStep, initTracker, REQUIRED_STABLE_FRAMES,
      h1, h1']

/-- Witness for the amended C3 at the four distinct resolutions
`(1,1) … (4,4)`. -/
theorem tracker_acceptance_not_run_based_witness :
    ((1, 1) : Nat × Nat) ≠ (2, 2) ∧
    trackerRun initTracker [(1, 1), (2, 2), (3, 3), (4, 4)] =
      [true, false, false, true] ∧
    trackerRun initTracker [(1, 1), (2, 2), (2, 2), (2, 2), (2, 2)] =
      [true, false, false, false, true] :=
  ⟨by decide,
   (tracker_acceptance_not_run_based (1, 1) (2, 2) (3, 3) (4, 4) (by decide)
     (by decide) (by decide)).1,
   (tracker_acceptance_not_run_based (1, 1) (2, 2) (3, 3) (4, 4) (by decide)
     (by decide) (by decide)).2⟩

/-- C8 counterexample: a payload whose 1920×1080 header parses but whose
pixel data fails to load is NOT a no-op — from a fresh session it both
advances the stability tracker and increments the frame counter (the save
and camera-write failures are caught after `frame_count += 1` was already
reachable), contradicting "never increments the frame counter, never alters
the stability state". -/
theorem truncated_frame_alters_state :
    (stepMsg initSession (.binary (.truncated 1920 1080))).frameCount ≠
      initSession.frameCount ∧
    (stepMsg initSession (.binary (.truncated 1920 1080))).tracker ≠
      initSession.tracker := by
  decide

/-- C8 (amended): a payload on which `Image.open` itself fails is a complete
no-op and the session continues — inserting it between two valid frames
yields exactly the session of the two valid frames alone.  A payload whose
header parses but whose pixel data fails to load never changes the transform
state, never schedules anything on the sink, and never terminates the
session, but it DOES advance the stability tracker with its header
dimensions (and, when the tracker accepts it with no rotation or flip
pending and the header size already matches the fixed canvas, increments the
frame counter). -/
theorem open_failure_noop_truncated_contained (s : Session) (i1 i2 : Img)
    (w h : Nat) :
    stepMsg s (.binary .invalid) = s ∧
    runMsgs s [.binary (.ok i1), .binary .invalid, .binary (.ok i2)] =
      runMsgs s [.binary (.ok i1), .binary (.ok i2)] ∧
    (stepMsg s (.binary (.truncated w h))).tracker =
      (trackerStep s.tracker (w, h)).1 ∧
    (stepMsg s (.binary (.truncated w h))).rotation = s.rotation ∧
    (stepMsg s (.binary (.truncated w h))).flip_h = s.flip_h ∧
    (stepMsg s (.binary (.truncated w h))).flip_v = s.flip_v ∧
    (stepMsg s (.binary (.truncated w h))).sink = s.sink := by
  refine ⟨rfl, rfl, ?_, ?_, ?_, ?_, ?_⟩ <;>
    (simp only [stepMsg, stepTruncated]; split_ifs <;> rfl)

/-! ## String-processing lemmas for the command interpreter -/

/-- Splitting a separator-free list yields the singleton of that list. -/
theorem pySplit_no_sep (sep : Char) (cs : List Char) (h : sep ∉ cs) :
    pySplit sep cs = [cs] := by
  induction cs with
  | nil => rfl
  | cons c rest ih =>
    have hc : c ≠ sep := fun e => h (e ▸ List.mem_cons_self c rest)
    have hr : sep ∉ rest := fun e => h (List.mem_cons_of_mem c e)
    simp [pySplit, hc, ih hr]


/-- Splitting at the first separator after a separator-free chunk. -/
theorem pySplit_append_sep (sep : Char) (xs ys : List Char) (h : sep ∉ xs) :
    pySplit sep (xs ++ sep :: ys) = xs :: pySplit sep ys := by
  induction xs with
  | nil => simp [pySplit]
  | cons c rest ih =>
    have hc : c ≠ sep := fun e => h (e ▸ List.mem_cons_self c rest)
    have hr : sep ∉ rest := fun e => h (List.mem_cons_of_mem c e)
    show pySplit sep (c :: (rest ++ sep :: ys)) = (c :: rest) :: pySplit sep ys
    simp only [pySplit]
    rw [if_neg hc, ih hr]

/-- Every character consumed by a successful digit-run parse is a digit. -/
theorem decDigits_all_digits (cs : List Char) (acc n : Nat)
    (h : decDigits cs acc = some n) : ∀ c ∈ cs, c.isDigit := by
  induction cs generalizing acc with
  | nil => intro c hc; cases hc
  | cons c rest ih =>
    intro d hd
    rw [List.mem_cons] at hd
    by_cases hcd : c.isDigit
    · rcases hd with rfl | hd
      · exact hcd
      · exact ih (acc * 10 + (c.toNat - 48))
          (by simpa [decDigits, hcd] using h) d hd
    · simp [decDigits, hcd] at h

/-- A digit run accepted by `digitsToNat` contains no colon. -/
theorem digitsToNat_no_colon (ds : List Char) (m : Nat)
    (h : digitsToNat ds = some m) : ':' ∉ ds := by
  cases ds with
  | nil => simp
  | cons d rest =>
    have he : decDigits (d :: rest) 0 = some m := by simpa [digitsToNat] using h
    intro hmem
    exact absurd (decDigits_all_digits (d :: rest) 0 m he ':' hmem) (by decide)

/-- A string accepted by Python `int()` contains no colon. -/
theorem pyIntOfChars_no_colon (cs : List Char) (n : Int)
    (h : pyIntOfChars cs = some n) : ':' ∉ cs := by
  cases cs with
  | nil => simp
  | cons c rest =>
    intro hmem
    rw [List.mem_cons] at hmem
    simp only [pyIntOfChars] at h
    by_cases h1 : c = '-'
    · rw [if_pos h1] at h
      cases hd : digitsToNat rest with
      | none => rw [hd] at h; cases h
      | some m =>
        rcases hmem with hm | hm
        · exact absurd (hm.trans h1) (by decide)
        · exact digitsToNat_no_colon rest m hd hm
    · rw [if_neg h1] at h
      by_cases h2 : c = '+'
      · rw [if_pos h2] at h
        cases hd : digitsToNat rest with
        | none => rw [hd] at h; cases h
        | some m =>
          rcases hmem with hm | hm
          · exact absurd (hm.trans h2) (by decide)
          · exact digitsToNat_no_colon rest m hd hm
      · rw [if_neg h2] at h
        cases hd : digitsToNat (c :: rest) with
        | none => rw [hd] at h; cases h
        | some m =>
          exact digitsToNat_no_colon (c :: rest) m hd (List.mem_cons.mpr hmem)

/-- The structured rotate command as a coherent message: the raw JSON text
of `\x7b"action":"rotate","value":n\x7d` together with the object
`json.loads` returns on it. -/
def jsonRotateMsg (n : Int) : TextMsg :=
  ⟨("\x7b\"action\":\"rotate\",\"value\":".data) ++ (toString n).data ++
      ("\x7d".data),
   some (.jobj [("action", .jstr "rotate"), ("value", .jint n)])⟩

/-- The fallback rotate command `ROTATE:<ds>` (which never parses as JSON)
for a textual integer `ds`. -/
def fallbackRotateMsg (ds : List Char) : TextMsg :=
  ⟨("ROTATE:".data) ++ ds, none⟩

/-- C6: from any session state, the structured command
`\x7b"action":"rotate","value":n\x7d` and the fallback command `ROTATE:n`
(with any textual representation of `n` that Python `int()` accepts, `"90"`
for the spec's instance) produce identical resulting session state. -/
theorem json_and_fallback_rotate_agree (s : Session) (n : Int) (ds : List Char)
    (h : pyIntOfChars ds = some n) :
    stepMsg s (.text (jsonRotateMsg n)) =
      stepMsg s (.text (fallbackRotateMsg ds)) := by
  have hnc : ':' ∉ ds := pyIntOfChars_no_colon ds n h
  have hsplit : pySplit ':' (("ROTATE:".data) ++ ds) = ["ROTATE".data, ds] := by
    have he : ("ROTATE:".data) ++ ds = ("ROTATE".data) ++ (':' :: ds) := rfl
    rw [he, pySplit_append_sep ':' ("ROTATE".data) ds (by decide),
      pySplit_no_sep ':' ds hnc]
  have hL : processText s (jsonRotateMsg n) = { s with rotation := n } := rfl
  have hR : processText s (fallbackRotateMsg ds) = { s with rotation := n } := by
    simp only [processText, fallbackRotateMsg]
    rw [if_pos (isPrefixOf_append_self ("ROTATE:".data) ds), hsplit]
    show (match pyIntOfChars ds with
      | some n => { s with rotation := n }
      | none => s) = { s with rotation := n }
    rw [h]
  exact hL.trans hR.symm

/-- Witness for C6 at the spec's instance `n = 90` from a fresh session. -/
theorem json_and_fallback_rotate_agree_witness :
    pyIntOfChars ("90".data) = some 90 ∧
    stepMsg initSession (.text (jsonRotateMsg 90)) =
      stepMsg initSession (.text (fallbackRotateMsg ("90".data))) :=
  ⟨by decide,
   json_and_fallback_rotate_agree initSession 90 ("90".data) (by decide)⟩

/-- Whether an optional JSON value is exactly the string `s`. -/
def isJStrVal (v : Option JVal) (s : String) : Bool :=
  match v with
  | some (.jstr t) => t = s
  | _ => false

/-- The structured JSON command grammar as the specification states it: an
object whose `action` is `"rotate"` with an INTEGER `value`, or `"flip"`
with a `type` upcasing to `"H"`/`"V"` and a BOOLEAN `value`. -/
def matchesStructuredGrammar (m : TextMsg) : Bool :=
  match m.parsed with
  | some (.jobj f) =>
    (isJStrVal (jGet f "action") "rotate" &&
      match jGet f "value" with
      | some (.jint _) => true
      | _ => false) ||
    (isJStrVal (jGet f "action") "flip" &&
      (match jGet f "type" with
       | some (.jstr t) =>
         decide (pyUpper t.data = ("H".data)) ||
           decide (pyUpper t.data = ("V".data))
       | _ => false) &&
      match jGet f "value" with
      | some (.jbool _) => true
      | _ => false)
  | _ => false

/-- The fallback delimited grammar as the specification states it:
`ROTATE:<int>`, `FLIP:H:<true|false>` or `FLIP:V:<true|false>` with a
case-insensitive boolean token. -/
def matchesFallbackGrammar (m : TextMsg) : Bool :=
  (List.isPrefixOf ("ROTATE:".data) m.raw &&
    (pyIntOfChars (m.raw.drop 7)).isSome) ||
  (List.isPrefixOf ("FLIP:H:".data) m.raw &&
    decide (pyLower (m.raw.drop 7) = ("true".data) ∨
      pyLower (m.raw.drop 7) = ("false".data))) ||
  (List.isPrefixOf ("FLIP:V:".data) m.raw &&
    decide (pyLower (m.raw.drop 7) = ("true".data) ∨
      pyLower (m.raw.drop 7) = ("false".data)))

/-- A structured message with action `"rotate"` but no `"value"` field,
paired with its `json.loads` value.  It matches neither spec grammar, yet the
handler coerces the missing value with `int(cmd.get("value", 0))`. -/
def rotateNoValueMsg : TextMsg :=
  ⟨"\x7b\"action\":\"rotate\"\x7d".data,
   some (.jobj [("action", .jstr "rotate")])⟩

/-- A session mid-stream whose rotation has been set to 90. -/
def sessionRot90 : Session := { initSession with rotation := 90 }

/-- C7 counterexample: the message `\x7b"action":"rotate"\x7d` matches
neither the structured grammar (no integer `value`) nor the fallback
grammar, yet processing it resets the session's rotation from 90 to the
default 0 — the transform state is NOT left unchanged. -/
theorem unmatched_message_mutates_state :
    matchesStructuredGrammar rotateNoValueMsg = false ∧
    matchesFallbackGrammar rotateNoValueMsg = false ∧
    (processText sessionRot90 rotateNoValueMsg).rotation ≠
      sessionRot90.rotation := by
  decide

/-- The superset of messages the handler may act on, characterized purely
by shape: a JSON object whose `action` field is the string `"rotate"` or
`"flip"` (the `value`/`type` fields are then interpreted loosely — coerced,
defaulted, or ignored), or, on JSON decode failure, a raw text starting with
`ROTATE:`, `FLIP:H:` or `FLIP:V:`.  The boundary deliberately involves no
`int()` parsing: whether a rotate value actually converts depends on
`int()`'s full acceptance (whitespace stripping, `_` grouping, non-ASCII
digits), which the model under-approximates — every message OUTSIDE this
shape-based superset reaches no conversion at all, so the ignored-message
theorem below is insensitive to that under-approximation. -/
def looseAccepts (m : TextMsg) : Bool :=
  match m.parsed with
  | some (.jobj fields) =>
    match jGet fields "action" with
    | some (.jstr a) => a = "rotate" || a = "flip"
    | _ => false
  | some _ => false
  | none =>
    List.isPrefixOf ("ROTATE:".data) m.raw ||
      List.isPrefixOf ("FLIP:H:".data) m.raw ||
      List.isPrefixOf ("FLIP:V:".data) m.raw

/-- C7 (amended): a text message outside the handler's LOOSE acceptance —
which is a strict superset of the spec's two grammars, coercing or
defaulting loosely-typed structured values and accepting arbitrary suffixes
after `ROTATE:` / `FLIP:H:` / `FLIP:V:` — leaves the entire session state
unchanged (it is only logged and ignored). -/
theorem loosely_unmatched_message_ignored (m : TextMsg) (s : Session)
    (h : looseAccepts m = false) : processText s m = s := by
  rcases m with ⟨raw, parsed⟩
  cases parsed with
  | none =>
    simp only [looseAccepts, Bool.or_eq_false_iff] at h
    simp only [processText]
    rw [if_neg (by simp [h.1.1]), if_neg (by simp [h.1.2]),
      if_neg (by simp [h.2])]
  | some j =>
    cases j with
    | jobj fields =>
      simp only [looseAccepts] at h
      simp only [processText]
      split
      · rename_i a heq
        simp only [heq, Bool.or_eq_false_iff] at h
        rw [if_neg (of_decide_eq_false h.1), if_neg (of_decide_eq_false h.2)]
      · rfl
    | jnull => rfl
    | jbool b => rfl
    | jint i => rfl
    | jnum q => rfl
    | jstr t => rfl
    | jarr l => rfl

/-- A message matching nothing at all. -/
def nonsenseMsg : TextMsg := ⟨"hello".data, none⟩

/-- Witness for the amended C7: the plain text `hello` is outside the loose
acceptance and leaves a fresh session untouched. -/
theorem loosely_unmatched_message_ignored_witness :
    looseAccepts nonsenseMsg = false ∧
    processText initSession nonsenseMsg = initSession :=
  ⟨by decide,
   loosely_unmatched_message_ignored nonsenseMsg initSession (by decide)⟩

/-- The structured flip command whose `value` is the JSON STRING `"false"`,
paired with its `json.loads` value. -/
def flipStringValueMsg : TextMsg :=
  ⟨"\x7b\"action\":\"flip\",\"type\":\"H\",\"value\":\"false\"\x7d".data,
   some (.jobj [("action", .jstr "flip"), ("type", .jstr "H"),
     ("value", .jstr "false")])⟩

/-- The structured flip command with no `value` field, paired with its
`json.loads` value. -/
def flipMissingValueMsg : TextMsg :=
  ⟨"\x7b\"action\":\"flip\",\"type\":\"H\"\x7d".data,
   some (.jobj [("action", .jstr "flip"), ("type", .jstr "H")])⟩

/-- A session whose horizontal flip is currently enabled (a genuine
boolean). -/
def sessionFlipHTrue : Session := { initSession with flip_h := .jbool true }

/-- C10: a structured flip command is not validated — the raw parsed value of
`\x7b"action":"flip","type":"H","value":"false"\x7d` (the non-empty STRING
`"false"`) is stored in `flipHorizontal` from any session state; that string
is truthy, so the Transform Pipeline behaves exactly as with the flag
genuinely `true`; and a flip command with a MISSING `value` stores the
default `False` — changing state rather than leaving it unchanged. -/
theorem flip_value_unvalidated (s : Session) :
    (processText s flipStringValueMsg).flip_h = .jstr "false" ∧
    truthy (.jstr "false") = true ∧
    (∀ (img : Img) (r : Int) (fv : JVal) (tw th : Nat),
      apply_transformations img r (.jstr "false") fv tw th =
        apply_transformations img r (.jbool true) fv tw th) ∧
    (processText s flipMissingValueMsg).flip_h = .jbool false ∧
    (processText sessionFlipHTrue flipMissingValueMsg).flip_h ≠
      sessionFlipHTrue.flip_h := by
  refine ⟨rfl, by decide, ?_, rfl, ?_⟩
  · intro img r fv tw th
    have ht : truthy (.jstr "false") = truthy (.jbool true) := by decide
    unfold apply_transformations flipSteps
    rw [ht]
  · intro he
    exact Bool.noConfusion (JVal.jbool.inj he)

/-- Witness for the amended C8 at a fresh session, concrete 2×1 frames and
a truncated 1920×1080-header payload. -/
theorem open_failure_noop_truncated_contained_witness :
    stepMsg initSession (.binary .invalid) = initSession ∧
    runMsgs initSession
        [.binary (.ok testImg), .binary .invalid, .binary (.ok testImg)] =
      runMsgs initSession [.binary (.ok testImg), .binary (.ok testImg)] ∧
    (stepMsg initSession (.binary (.truncated 1920 1080))).tracker =
      (trackerStep initSession.tracker (1920, 1080)).1 ∧
    (stepMsg initSession (.binary (.truncated 1920 1080))).rotation =
      initSession.rotation ∧
    (stepMsg initSession (.binary (.truncated 1920 1080))).flip_h =
      initSession.flip_h ∧
    (stepMsg initSession (.binary (.truncated 1920 1080))).flip_v =
      initSession.flip_v ∧
    (stepMsg initSession (.binary (.truncated 1920 1080))).sink =
      initSession.sink :=
  open_failure_noop_truncated_contained initSession testImg testImg 1920 1080

/-- Witness for C10 at a fresh session. -/
theorem flip_value_unvalidated_witness :
    (processText initSession flipStringValueMsg).flip_h = .jstr "false" ∧
    truthy (.jstr "false") = true ∧
    (∀ (img : Img) (r : Int) (fv : JVal) (tw th : Nat),
      apply_transformations img r (.jstr "false") fv tw th =
        apply_transformations img r (.jbool true) fv tw th) ∧
    (processText initSession flipMissingValueMsg).flip_h = .jbool false ∧
    (processText sessionFlipHTrue flipMissingValueMsg).flip_h ≠
      sessionFlipHTrue.flip_h :=
  flip_value_unvalidated initSession
